import Mathlib

/-!
Shallow embedding of
`src/frontend/src/app/shared/components/datepicker/single-date-form/single-date-form.component.ts`
(OpSingleDateFormComponent from the OpenProject frontend).

The component is single-threaded UI glue: every method is modelled as a pure
function from component state to (new state, list of observable effects).
External collaborators (the flatpickr date-picker widget, the scheduling and
relations services, the change tracking changeset, the timezone service and
the date helpers) are modelled through an `Env` record of abstract but
executable functions, and through the `Effect` trace recording every call the
component makes into them.

Calendar dates are abstracted as integers (`DateT`); nothing in the component
inspects the internal structure of a `Date` object beyond passing it around.
-/

namespace SingleDateForm

/-- Abstract model of a JavaScript `Date` value. -/
abbrev DateT := Int

/-- The external collaborators consumed by the component, modelled as an
environment of executable functions:
* `validDate` — the date-validity predicate from the date-modal helpers;
* `parseDate` — the date parser from the date-modal helpers (returns null on
  failure, modelled as `none`);
* `formattedISODate` — `TimezoneService.formattedISODate`;
* `today` — the value of `parseDate(new Date())` in `setToday`;
* `isSchedulable` — `DateModalSchedulingService.isSchedulable`;
* `isMobile` — `DeviceService.isMobile`. -/
structure Env where
  validDate : String → Bool
  parseDate : String → Option DateT
  formattedISODate : DateT → String
  today : DateT
  isSchedulable : Bool
  isMobile : Bool

/-- A value written into the changeset via `setValue`. -/
inductive Value where
  | bool : Bool → Value
  | str : Option String → Value
  deriving DecidableEq, Repr

/-- Observable effects: every call the component makes into a collaborator.
`setValue` records the receiver (the component's `changeset` field, of type
`ResourceChangeset`, `none` standing for the JavaScript `undefined` of a
never-assigned field), the field name and the written value. -/
inductive Effect where
  | preventDefault : Effect
  | setValue : Option Unit → String → Value → Effect
  | emitSavedOrCancelled : Effect
  | destroyWidget : Nat → Effect
  | createWidget : Nat → Effect
  | setDatesOnWidget : Nat → Option DateT → Effect
  | detectChanges : Effect
  | setChangesetOnRelations : Option Unit → Effect
  | setChangesetOnScheduling : Option Unit → Effect
  | manualEditSignal : Effect
  deriving DecidableEq, Repr

/-- A live `DatePicker` instance. `id` identifies the instance across its
lifecycle, `selectedDate` is the widget's internal selected date,
`minimalDate` is the minimal date captured by the `onDayCreate` closure at
construction time, `showMonths` is the flatpickr option of the same name. -/
structure Widget where
  id : Nat
  selectedDate : Option DateT
  minimalDate : Option DateT
  showMonths : Nat
  deriving DecidableEq, Repr

/-- The component's mutable fields, plus bookkeeping for widget lifecycles:
`created` and `destroyed` record the ids of every widget instance ever
constructed or destroyed (newest first), so that liveness of instances is
expressible. `changeset` is the private `changeset:ResourceChangeset` field;
it is `none` while unassigned (JavaScript `undefined`). -/
structure CState where
  scheduleManually : Bool
  ignoreNonWorkingDays : Bool
  date : Option String
  debounceDelay : Nat
  changeset : Option Unit
  datePickerInstance : Option Widget
  nextWidgetId : Nat
  created : List Nat
  destroyed : List Nat
  deriving DecidableEq, Repr

/-- The component's field initializers: `scheduleManually = false`,
`ignoreNonWorkingDays = false`, `date = null`, `debounceDelay = 0`, and the
`changeset` and `datePickerInstance` fields left unassigned. -/
def initState : CState where
  scheduleManually := false
  ignoreNonWorkingDays := false
  date := none
  debounceDelay := 0
  changeset := none
  datePickerInstance := none
  nextWidgetId := 0
  created := []
  destroyed := []

/-- The constructor body: it passes `this.changeset` (whatever value the field
currently has) to `dateModalRelations.setChangeset` and
`dateModalScheduling.setChangeset`. -/
def constructorEffects (s : CState) : List Effect :=
  [Effect.setChangesetOnRelations s.changeset,
   Effect.setChangesetOnScheduling s.changeset]

/-- Modelled from the spec: the `setDates` helper from
`date-modal.helpers` (not under `src/`) pushes the given date value into the
widget, reconciling the widget's internal highlighted date with the local
field; the enforced date only steers month navigation. When no widget
instance is live the call is a no-op in the model. -/
def setDates (dates : Option DateT) (s : CState) (enforceDate : Option DateT) :
    CState × List Effect :=
  match s.datePickerInstance with
  | none => (s, [])
  | some w =>
    ({ s with datePickerInstance := some { w with selectedDate := dates } },
     [Effect.setDatesOnWidget w.id dates])

/-- Modelled from the spec: the `mappedDate` helper from
`date-modal.helpers` (not under `src/`) maps the local date field to the
value written into the change tracking collaborator at save time (an empty
or null date becomes null). -/
def mappedDate : Option String → Option String
  | none => none
  | some v => if v = "" then none else some v

/-- `enforceManualChangesToDatepicker`: parses `this.date || ''` and calls
`setDates(date, this.datePickerInstance, enforceDate)`. -/
def enforceManualChangesToDatepicker (env : Env) (s : CState)
    (enforceDate : Option DateT) : CState × List Effect :=
  let date := env.parseDate (s.date.getD "")
  setDates date s enforceDate

/-- `updateDate(val)`: accepts `val` only if it is non-null and either at
least 8 characters long or empty; on top of that only if `validDate(val)`
holds and a widget instance is live; then parses it and enforces the change
onto the datepicker. -/
def updateDate (env : Env) (s : CState) (val : Option String) :
    CState × List Effect :=
  match val with
  | none => (s, [])
  | some v =>
    if 8 ≤ v.length ∨ v.length = 0 then
      if env.validDate v ∧ s.datePickerInstance.isSome then
        let dateValue := env.parseDate v
        enforceManualChangesToDatepicker env s dateValue
      else (s, [])
    else (s, [])

/-- `save($event)`: prevents the default action, writes `scheduleManually`
and `ignoreNonWorkingDays` into the changeset, writes `date` only when
`dateModalScheduling.isSchedulable`, then emits `savedOrCancelled`. -/
def save (env : Env) (s : CState) : CState × List Effect :=
  (s,
    [Effect.preventDefault,
     Effect.setValue s.changeset "scheduleManually" (Value.bool s.scheduleManually),
     Effect.setValue s.changeset "ignoreNonWorkingDays" (Value.bool s.ignoreNonWorkingDays)]
    ++ (if env.isSchedulable then
          [Effect.setValue s.changeset "date" (Value.str (mappedDate s.date))]
        else [])
    ++ [Effect.emitSavedOrCancelled])

/-- `cancel()`: only emits `savedOrCancelled`. -/
def cancel (s : CState) : CState × List Effect :=
  (s, [Effect.emitSavedOrCancelled])

/-- `setToday()`: computes today, formats it per the active timezone into the
local date field, and immediately enforces the change onto the datepicker. -/
def setToday (env : Env) (s : CState) : CState × List Effect :=
  let today := env.today
  let s1 := { s with date := some (env.formattedISODate today) }
  enforceManualChangesToDatepicker env s1 (some today)

/-- `initializeDatepicker(minimalDate?)`: destroys the existing instance via
optional chaining (`this.datePickerInstance?.destroy()`), then constructs a
new `DatePicker` on `this.date || ''` whose `onDayCreate` closure captures
`minimalDate`, with `showMonths` 1 on mobile and 2 otherwise. -/
def initializeDatepicker (env : Env) (s : CState) (minimalDate : Option DateT) :
    CState × List Effect :=
  let destroyEffects : List Effect :=
    match s.datePickerInstance with
    | none => []
    | some w => [Effect.destroyWidget w.id]
  let destroyed1 : List Nat :=
    match s.datePickerInstance with
    | none => s.destroyed
    | some w => w.id :: s.destroyed
  let newId := s.nextWidgetId
  let w : Widget :=
    { id := newId
      selectedDate := env.parseDate (s.date.getD "")
      minimalDate := minimalDate
      showMonths := if env.isMobile then 1 else 2 }
  ({ s with
      datePickerInstance := some w
      nextWidgetId := newId + 1
      created := newId :: s.created
      destroyed := destroyed1 },
   destroyEffects ++ [Effect.createWidget newId])

/-- The minimal-date argument that the widget's `onDayCreate` styling and
disablement callback receives: the value captured by the closure when the
instance was constructed. -/
def dayCallbackMinimalDate (w : Widget) : Option DateT :=
  w.minimalDate

/-- `changeSchedulingMode()`: re-initializes the datepicker with no
minimal-date argument and forces a change-detection pass. -/
def changeSchedulingMode (env : Env) (s : CState) : CState × List Effect :=
  let r := initializeDatepicker env s none
  (r.1, r.2 ++ [Effect.detectChanges])

/-- `changeNonWorkingDays()`: re-initializes the datepicker with no
minimal-date argument (the duration-recomputation branch is commented out in
the source and inert) and forces a change-detection pass. -/
def changeNonWorkingDays (env : Env) (s : CState) : CState × List Effect :=
  let r := initializeDatepicker env s none
  (r.1, r.2 ++ [Effect.detectChanges])

/-- The body of the `dateChangedManually$` debounced subscription in
`ngAfterViewInit`: sets the debounce delay to its real value 800 and updates
the whole form via `updateDate(this.date)`. -/
def debouncedReconcile (env : Env) (s : CState) : CState × List Effect :=
  let s1 := { s with debounceDelay := 800 }
  updateDate env s1 s1.date

/-- The widget's `onChange` callback: when the selected-dates list is
non-empty, formats the first selected date into the local date field and
enforces it onto the datepicker; in every case requests change detection. -/
def onChange (env : Env) (s : CState) (dates : List DateT) :
    CState × List Effect :=
  match dates with
  | [] => (s, [Effect.detectChanges])
  | d :: _ =>
    let s1 := { s with date := some (env.formattedISODate d) }
    let r := enforceManualChangesToDatepicker env s1 (some d)
    (r.1, r.2 ++ [Effect.detectChanges])

/-- `updateDatesFromForm(form)`: overwrites the local date and
ignore-non-working-days fields from the form payload and enforces the parsed
date onto the datepicker. -/
def updateDatesFromForm (env : Env) (s : CState)
    (payloadDate : String) (payloadIgnoreNonWorkingDays : Bool) :
    CState × List Effect :=
  let s1 := { s with
                date := some payloadDate
                ignoreNonWorkingDays := payloadIgnoreNonWorkingDays }
  enforceManualChangesToDatepicker env s1 (env.parseDate payloadDate)

/-- Every externally triggerable operation of the component:
its methods, the subscription callbacks wired in `ngAfterViewInit` and
`initializeDatepicker`, and the template bindings (text input into the date
field, the two toggle bindings). -/
inductive Event where
  | minimalDateEmission : Option DateT → Event
  | debouncedReconcile : Event
  | changeSchedulingMode : Event
  | changeNonWorkingDays : Event
  | save : Event
  | cancel : Event
  | updateDate : Option String → Event
  | setToday : Event
  | onChange : List DateT → Event
  | updateDatesFromForm : String → Bool → Event
  | inputDate : String → Event
  | setScheduleManually : Bool → Event
  | setIgnoreNonWorkingDays : Bool → Event
  deriving DecidableEq, Repr

/-- One step of the component: dispatch an event to the corresponding
operation. `inputDate` models a keystroke into the bound date field (which
also signals `dateChangedManually$`), and the two toggle events model the
template's two-way bindings on the checkboxes. -/
def step (env : Env) (e : Event) (s : CState) : CState × List Effect :=
  match e with
  | Event.minimalDateEmission d => initializeDatepicker env s d
  | Event.debouncedReconcile => debouncedReconcile env s
  | Event.changeSchedulingMode => changeSchedulingMode env s
  | Event.changeNonWorkingDays => changeNonWorkingDays env s
  | Event.save => save env s
  | Event.cancel => cancel s
  | Event.updateDate v => updateDate env s v
  | Event.setToday => setToday env s
  | Event.onChange ds => onChange env s ds
  | Event.updateDatesFromForm d b => updateDatesFromForm env s d b
  | Event.inputDate v => ({ s with date := some v }, [Effect.manualEditSignal])
  | Event.setScheduleManually b => ({ s with scheduleManually := b }, [])
  | Event.setIgnoreNonWorkingDays b => ({ s with ignoreNonWorkingDays := b }, [])

/-- Run a sequence of events from a state (effects discarded). -/
def run (env : Env) (s : CState) : List Event → CState
  | [] => s
  | e :: es => run env (step env e s).1 es

/-- The ids of the widget instances that are currently live: created and not
destroyed. -/
def live (s : CState) : List Nat :=
  s.created.filter (fun i => !decide (i ∈ s.destroyed))

/-- Does the effect list contain a `setValue` on the given field name? -/
def writesField (effs : List Effect) (f : String) : Bool :=
  effs.any (fun e =>
    match e with
    | Effect.setValue _ g _ => g == f
    | _ => false)

/-- Number of `setValue` effects in the list. -/
def setValueCount (effs : List Effect) : Nat :=
  effs.countP (fun e =>
    match e with
    | Effect.setValue _ _ _ => true
    | _ => false)

/-- Number of `savedOrCancelled` emissions in the list. -/
def emitCount (effs : List Effect) : Nat :=
  effs.countP (fun e =>
    match e with
    | Effect.emitSavedOrCancelled => true
    | _ => false)

/-- Number of `dateChangedManually$` signals in the list. -/
def manualSignalCount (effs : List Effect) : Nat :=
  effs.countP (fun e =>
    match e with
    | Effect.manualEditSignal => true
    | _ => false)

/-- The receivers of all `setValue` effects in the list. -/
def setValueReceivers (effs : List Effect) : List (Option Unit) :=
  effs.filterMap (fun e =>
    match e with
    | Effect.setValue r _ _ => some r
    | _ => none)

/-- A concrete environment for evaluating the model on sample inputs. -/
def sampleEnv : Env where
  validDate := fun v => v != "invalid!!!"
  parseDate := fun v => if v = "" then none else some (Int.ofNat v.length)
  formattedISODate := fun d => "2024-01-0" ++ toString d
  today := 3
  isSchedulable := true
  isMobile := false

/-- A concrete widget instance for evaluating the model on sample inputs. -/
def sampleWidget : Widget where
  id := 0
  selectedDate := none
  minimalDate := some 7
  showMonths := 2

/-- A concrete state with one live widget instance, as produced by one
minimal-date emission. -/
def sampleStateW : CState :=
  { initState with
      datePickerInstance := some sampleWidget
      nextWidgetId := 1
      created := [0] }

/-- Fields of the state that no operation except `initializeDatepicker`
touches: the changeset, the widget-lifecycle bookkeeping, and the identity of
the live widget instance. -/
def NonLifecycle (s t : CState) : Prop :=
  t.changeset = s.changeset ∧
  t.nextWidgetId = s.nextWidgetId ∧
  t.created = s.created ∧
  t.destroyed = s.destroyed ∧
  t.datePickerInstance.map Widget.id = s.datePickerInstance.map Widget.id

theorem nonLifecycle_refl (s : CState) : NonLifecycle s s :=
  ⟨rfl, rfl, rfl, rfl, rfl⟩

theorem nonLifecycle_trans {s t u : CState} (h1 : NonLifecycle s t)
    (h2 : NonLifecycle t u) : NonLifecycle s u :=
  ⟨h2.1.trans h1.1, h2.2.1.trans h1.2.1, h2.2.2.1.trans h1.2.2.1,
   h2.2.2.2.1.trans h1.2.2.2.1, h2.2.2.2.2.trans h1.2.2.2.2⟩

theorem setDates_nonLifecycle (d ed : Option DateT) (s : CState) :
    NonLifecycle s (setDates d s ed).1 := by
  cases h : s.datePickerInstance <;> simp [NonLifecycle, setDates, h]

theorem enforce_nonLifecycle (env : Env) (s : CState) (ed : Option DateT) :
    NonLifecycle s (enforceManualChangesToDatepicker env s ed).1 := by
  simp only [enforceManualChangesToDatepicker]
  exact setDates_nonLifecycle _ _ _

theorem updateDate_nonLifecycle (env : Env) (s : CState) (v : Option String) :
    NonLifecycle s (updateDate env s v).1 := by
  cases v with
  | none => exact nonLifecycle_refl s
  | some v =>
    simp only [updateDate]
    split
    · split
      · exact enforce_nonLifecycle env s _
      · exact nonLifecycle_refl s
    · exact nonLifecycle_refl s

theorem setDates_date (d ed : Option DateT) (s : CState) :
    (setDates d s ed).1.date = s.date := by
  cases h : s.datePickerInstance <;> simp [setDates, h]

theorem setDates_debounceDelay (d ed : Option DateT) (s : CState) :
    (setDates d s ed).1.debounceDelay = s.debounceDelay := by
  cases h : s.datePickerInstance <;> simp [setDates, h]

theorem enforce_date (env : Env) (s : CState) (ed : Option DateT) :
    (enforceManualChangesToDatepicker env s ed).1.date = s.date := by
  simp only [enforceManualChangesToDatepicker]
  exact setDates_date _ _ _

theorem enforce_debounceDelay (env : Env) (s : CState) (ed : Option DateT) :
    (enforceManualChangesToDatepicker env s ed).1.debounceDelay = s.debounceDelay := by
  simp only [enforceManualChangesToDatepicker]
  exact setDates_debounceDelay _ _ _

theorem updateDate_debounceDelay (env : Env) (s : CState) (v : Option String) :
    (updateDate env s v).1.debounceDelay = s.debounceDelay := by
  cases v with
  | none => rfl
  | some v =>
    simp only [updateDate]
    split
    · split
      · exact enforce_debounceDelay _ _ _
      · rfl
    · rfl

theorem debouncedReconcile_debounceDelay (env : Env) (s : CState) :
    (debouncedReconcile env s).1.debounceDelay = 800 := by
  simp only [debouncedReconcile]
  rw [updateDate_debounceDelay]

/-- Either a step leaves the debounce delay unchanged or it sets it to 800. -/
theorem step_debounceDelay (env : Env) (e : Event) (s : CState) :
    (step env e s).1.debounceDelay = s.debounceDelay ∨
    (step env e s).1.debounceDelay = 800 := by
  cases e with
  | minimalDateEmission d => left; simp [step, initializeDatepicker]
  | debouncedReconcile => right; exact debouncedReconcile_debounceDelay env s
  | changeSchedulingMode =>
    left; simp [step, changeSchedulingMode, initializeDatepicker]
  | changeNonWorkingDays =>
    left; simp [step, changeNonWorkingDays, initializeDatepicker]
  | save => left; rfl
  | cancel => left; rfl
  | updateDate v => left; exact updateDate_debounceDelay env s v
  | setToday =>
    left
    simp only [step, setToday]
    exact enforce_debounceDelay env _ _
  | onChange ds =>
    cases ds with
    | nil => left; rfl
    | cons d rest =>
      left
      simp only [step, onChange]
      exact enforce_debounceDelay env _ _
  | updateDatesFromForm d b =>
    left
    simp only [step, updateDatesFromForm]
    exact enforce_debounceDelay env _ _
  | inputDate v => left; rfl
  | setScheduleManually b => left; rfl
  | setIgnoreNonWorkingDays b => left; rfl

theorem mem_live (s : CState) (x : Nat) :
    x ∈ live s ↔ x ∈ s.created ∧ x ∉ s.destroyed := by
  simp [live, List.mem_filter]

/-- The reachability invariant for widget lifecycles: every recorded id is
below the id counter, and the live instances are exactly the current
`datePickerInstance` (so there is at most one). -/
structure Inv (s : CState) : Prop where
  createdLt : ∀ i ∈ s.created, i < s.nextWidgetId
  destroyedLt : ∀ i ∈ s.destroyed, i < s.nextWidgetId
  liveEq : live s = (s.datePickerInstance.map Widget.id).toList

theorem initState_inv : Inv initState := by
  refine ⟨?_, ?_, ?_⟩ <;> simp [initState, live]

theorem inv_of_nonLifecycle {s t : CState} (h : NonLifecycle s t)
    (hs : Inv s) : Inv t := by
  obtain ⟨hc, hn, hcr, hd, hi⟩ := h
  refine ⟨?_, ?_, ?_⟩
  · intro i him
    rw [hcr] at him
    rw [hn]
    exact hs.createdLt i him
  · intro i him
    rw [hd] at him
    rw [hn]
    exact hs.destroyedLt i him
  · have hl : live t = live s := by
      unfold live
      rw [hcr, hd]
    rw [hl, hi]
    exact hs.liveEq

theorem initializeDatepicker_inv (env : Env) (md : Option DateT)
    (s : CState) (hs : Inv s) : Inv (initializeDatepicker env s md).1 := by
  cases hw : s.datePickerInstance with
  | none =>
    have hlive : live s = [] := by
      rw [hs.liveEq, hw]
      rfl
    refine ⟨?_, ?_, ?_⟩
    · intro i him
      simp only [initializeDatepicker, hw, List.mem_cons] at him
      rcases him with rfl | him
      · simp [initializeDatepicker]
      · simp only [initializeDatepicker]
        exact Nat.lt_succ_of_lt (hs.createdLt i him)
    · intro i him
      simp only [initializeDatepicker, hw] at him
      simp only [initializeDatepicker]
      exact Nat.lt_succ_of_lt (hs.destroyedLt i him)
    · have hnid : s.nextWidgetId ∉ s.destroyed := fun h =>
        lt_irrefl _ (hs.destroyedLt _ h)
      show live _ = _
      unfold live
      simp only [initializeDatepicker, hw, Option.map_some, Option.toList_some,
        List.filter_cons]
      rw [if_pos (by simpa using hnid)]
      have hfl : List.filter (fun i => !decide (i ∈ s.destroyed)) s.created = [] := hlive
      rw [hfl]
      rfl
  | some w =>
    have hwid_live : w.id ∈ live s := by
      rw [hs.liveEq, hw]
      simp
    have hwid_created : w.id ∈ s.created := ((mem_live s w.id).1 hwid_live).1
    have hwid_lt : w.id < s.nextWidgetId := hs.createdLt _ hwid_created
    refine ⟨?_, ?_, ?_⟩
    · intro i him
      simp only [initializeDatepicker, hw, List.mem_cons] at him
      rcases him with rfl | him
      · simp [initializeDatepicker]
      · simp only [initializeDatepicker]
        exact Nat.lt_succ_of_lt (hs.createdLt i him)
    · intro i him
      simp only [initializeDatepicker, hw, List.mem_cons] at him
      simp only [initializeDatepicker]
      rcases him with rfl | him
      · exact Nat.lt_succ_of_lt hwid_lt
      · exact Nat.lt_succ_of_lt (hs.destroyedLt i him)
    · have hnid : s.nextWidgetId ∉ w.id :: s.destroyed := by
        intro h
        rcases List.mem_cons.1 h with h | h
        · exact absurd h.symm (Nat.ne_of_lt hwid_lt)
        · exact lt_irrefl _ (hs.destroyedLt _ h)
      have hfilter :
          List.filter (fun i => !decide (i ∈ w.id :: s.destroyed)) s.created = [] := by
        rw [List.eq_nil_iff_forall_not_mem]
        intro x hx
        rw [List.mem_filter] at hx
        obtain ⟨hxc, hxp⟩ := hx
        have hxnot : x ∉ w.id :: s.destroyed := by simpa using hxp
        have hxd : x ∉ s.destroyed := fun h => hxnot (List.mem_cons_of_mem _ h)
        have hxne : x ≠ w.id := fun h => hxnot (h ▸ List.mem_cons_self _ _)
        have hxl : x ∈ live s := (mem_live s x).2 ⟨hxc, hxd⟩
        rw [hs.liveEq, hw] at hxl
        have hxl2 : x = w.id := by simpa using hxl
        exact hxne hxl2
      show live _ = _
      unfold live
      simp only [initializeDatepicker, hw, List.filter_cons]
      rw [if_pos (by simpa using hnid)]
      rw [hfilter]
      rfl

theorem step_inv (env : Env) (e : Event) (s : CState) (hs : Inv s) :
    Inv (step env e s).1 := by
  cases e with
  | minimalDateEmission d => exact initializeDatepicker_inv env d s hs
  | debouncedReconcile =>
    refine inv_of_nonLifecycle ?_ hs
    simp only [step, debouncedReconcile]
    refine nonLifecycle_trans (t := { s with debounceDelay := 800 }) ?_ ?_
    · exact ⟨rfl, rfl, rfl, rfl, rfl⟩
    · exact updateDate_nonLifecycle env _ _
  | changeSchedulingMode => exact initializeDatepicker_inv env none s hs
  | changeNonWorkingDays => exact initializeDatepicker_inv env none s hs
  | save => exact hs
  | cancel => exact hs
  | updateDate v => exact inv_of_nonLifecycle (updateDate_nonLifecycle env s v) hs
  | setToday =>
    refine inv_of_nonLifecycle ?_ hs
    simp only [step, setToday]
    refine nonLifecycle_trans
      (t := { s with date := some (env.formattedISODate env.today) }) ?_ ?_
    · exact ⟨rfl, rfl, rfl, rfl, rfl⟩
    · exact enforce_nonLifecycle env _ _
  | onChange ds =>
    cases ds with
    | nil => exact hs
    | cons d rest =>
      refine inv_of_nonLifecycle ?_ hs
      simp only [step, onChange]
      refine nonLifecycle_trans
        (t := { s with date := some (env.formattedISODate d) }) ?_ ?_
      · exact ⟨rfl, rfl, rfl, rfl, rfl⟩
      · exact enforce_nonLifecycle env _ _
  | updateDatesFromForm d b =>
    refine inv_of_nonLifecycle ?_ hs
    simp only [step, updateDatesFromForm]
    refine nonLifecycle_trans
      (t := { s with date := some d, ignoreNonWorkingDays := b }) ?_ ?_
    · exact ⟨rfl, rfl, rfl, rfl, rfl⟩
    · exact enforce_nonLifecycle env _ _
  | inputDate v =>
    exact inv_of_nonLifecycle (s := s) ⟨rfl, rfl, rfl, rfl, rfl⟩ hs
  | setScheduleManually b =>
    exact inv_of_nonLifecycle (s := s) ⟨rfl, rfl, rfl, rfl, rfl⟩ hs
  | setIgnoreNonWorkingDays b =>
    exact inv_of_nonLifecycle (s := s) ⟨rfl, rfl, rfl, rfl, rfl⟩ hs

theorem run_inv (env : Env) (events : List Event) (s : CState) (hs : Inv s) :
    Inv (run env s events) := by
  induction events generalizing s with
  | nil => exact hs
  | cons e es ih => exact ih _ (step_inv env e s hs)

theorem step_changeset (env : Env) (e : Event) (s : CState) :
    (step env e s).1.changeset = s.changeset := by
  cases e with
  | minimalDateEmission d => simp [step, initializeDatepicker]
  | debouncedReconcile =>
    exact (updateDate_nonLifecycle env { s with debounceDelay := 800 } _).1
  | changeSchedulingMode => simp [step, changeSchedulingMode, initializeDatepicker]
  | changeNonWorkingDays => simp [step, changeNonWorkingDays, initializeDatepicker]
  | save => rfl
  | cancel => rfl
  | updateDate v => exact (updateDate_nonLifecycle env s v).1
  | setToday =>
    simp only [step, setToday]
    exact (enforce_nonLifecycle env _ _).1
  | onChange ds =>
    cases ds with
    | nil => rfl
    | cons d rest =>
      simp only [step, onChange]
      exact (enforce_nonLifecycle env _ _).1
  | updateDatesFromForm d b =>
    simp only [step, updateDatesFromForm]
    exact (enforce_nonLifecycle env _ _).1
  | inputDate v => rfl
  | setScheduleManually b => rfl
  | setIgnoreNonWorkingDays b => rfl

theorem run_changeset (env : Env) (events : List Event) (s : CState) :
    (run env s events).changeset = s.changeset := by
  induction events generalizing s with
  | nil => rfl
  | cons e es ih => rw [run, ih, step_changeset]

theorem string_eq_empty_of_length_eq_zero {v : String} (h : v.length = 0) :
    v = "" := by
  cases v with
  | mk data =>
    have hd : data = [] := List.length_eq_zero.mp h
    subst hd
    rfl

/-- C1: `save(event)` writes `scheduleManually` and `ignoreNonWorkingDays`
into the change tracking collaborator unconditionally, writes the `date`
field if and only if the scheduling collaborator's `isSchedulable` is true
(no write to the date field at all when it is false), and emits the
`savedOrCancelled` completion event exactly once. -/
theorem save_writes_fields_and_emits_once (env : Env) (s : CState) :
    writesField (save env s).2 "scheduleManually" = true ∧
    writesField (save env s).2 "ignoreNonWorkingDays" = true ∧
    writesField (save env s).2 "date" = env.isSchedulable ∧
    emitCount (save env s).2 = 1 := by
  cases h : env.isSchedulable <;>
    simp [save, writesField, emitCount, h]

/-- C2: the private `changeset` field is never assigned in the component:
it is `none` (undefined) in every reachable state, the constructor passes
this unassigned value to both the relations and the scheduling collaborator,
and every `save()` call issues its `setValue` calls on this never-assigned
receiver. -/
theorem changeset_never_assigned (env : Env) (events : List Event) :
    (run env initState events).changeset = none ∧
    constructorEffects initState =
      [Effect.setChangesetOnRelations none, Effect.setChangesetOnScheduling none] ∧
    (setValueReceivers (save env (run env initState events)).2).all Option.isNone = true := by
  have hcs : (run env initState events).changeset = none :=
    run_changeset env events initState
  refine ⟨hcs, rfl, ?_⟩
  cases h : env.isSchedulable <;>
    simp [save, setValueReceivers, hcs, h]

/-- C3: the debounce delay starts at 0, the debounced reconciliation sets it
to 800, and no operation of the component ever takes it back below 800 once
it is 800. -/
theorem debounce_delay_protocol (env : Env) (e : Event) (s : CState) :
    initState.debounceDelay = 0 ∧
    (step env Event.debouncedReconcile s).1.debounceDelay = 800 ∧
    (s.debounceDelay = 800 → (step env e s).1.debounceDelay = 800) := by
  refine ⟨rfl, debouncedReconcile_debounceDelay env s, ?_⟩
  intro h800
  rcases step_debounceDelay env e s with h | h
  · rw [h, h800]
  · exact h

theorem debounce_delay_protocol_witness :
    ({ initState with debounceDelay := 800 } : CState).debounceDelay = 800 ∧
    (step sampleEnv Event.cancel
      { initState with debounceDelay := 800 }).1.debounceDelay = 800 :=
  ⟨rfl,
   (debounce_delay_protocol sampleEnv Event.cancel
     { initState with debounceDelay := 800 }).2.2 rfl⟩

/-- C4: when the local date is a syntactically valid date string of length
at least 8 and a widget instance is live, the debounced reconciliation
(`updateDate(this.date)`) leaves the widget's internal selected date equal
to the parser's value on that string, and the local date field equal to the
input string. -/
theorem reconcile_valid_date_updates_widget (env : Env) (s : CState)
    (w : Widget) (val : String) (hval : s.date = some val)
    (hlen : 8 ≤ val.length) (hvalid : env.validDate val = true)
    (hw : s.datePickerInstance = some w) :
    ((step env Event.debouncedReconcile s).1.datePickerInstance.map
      Widget.selectedDate) = some (env.parseDate val) ∧
    (step env Event.debouncedReconcile s).1.date = some val := by
  simp [step, debouncedReconcile, updateDate, enforceManualChangesToDatepicker,
    setDates, hval, hw, hvalid, hlen]

/-- A concrete state for evaluating the reconciliation claims: one live
widget instance and a valid local date string. -/
def sampleStateValid : CState :=
  { sampleStateW with date := some "2024-01-15" }

theorem reconcile_valid_date_updates_widget_witness :
    sampleStateValid.date = some "2024-01-15" ∧
    8 ≤ ("2024-01-15" : String).length ∧
    sampleEnv.validDate "2024-01-15" = true ∧
    sampleStateValid.datePickerInstance = some sampleWidget ∧
    (((step sampleEnv Event.debouncedReconcile sampleStateValid).1.datePickerInstance.map
       Widget.selectedDate) = some (sampleEnv.parseDate "2024-01-15") ∧
     (step sampleEnv Event.debouncedReconcile sampleStateValid).1.date =
       some "2024-01-15") :=
  ⟨rfl, by decide, by decide, rfl,
   reconcile_valid_date_updates_widget sampleEnv sampleStateValid sampleWidget
     "2024-01-15" rfl (by decide) (by decide) rfl⟩

/-- C5: any non-empty candidate date string shorter than 8 characters, and
any string failing the external date-validity check, is silently ignored by
`updateDate`: the state (hence the widget's internal date) is unchanged and
no effect is produced. -/
theorem updateDate_silently_ignores_invalid (env : Env) (s : CState)
    (val : String)
    (h : (val ≠ "" ∧ val.length < 8) ∨ env.validDate val = false) :
    updateDate env s (some val) = (s, []) := by
  rcases h with ⟨hne, hlt⟩ | hv
  · simp only [updateDate]
    rw [if_neg]
    rintro (hc | hc)
    · omega
    · exact hne (string_eq_empty_of_length_eq_zero hc)
  · simp only [updateDate]
    split
    · rw [if_neg]
      rintro ⟨h1, _⟩
      rw [hv] at h1
      exact Bool.false_ne_true h1
    · rfl

theorem updateDate_silently_ignores_invalid_witness :
    (("2024" ≠ "" ∧ ("2024" : String).length < 8) ∨
      sampleEnv.validDate "2024" = false) ∧
    updateDate sampleEnv initState (some "2024") = (initState, []) :=
  ⟨Or.inl ⟨by decide, by decide⟩,
   updateDate_silently_ignores_invalid sampleEnv initState "2024"
     (Or.inl ⟨by decide, by decide⟩)⟩

/-- C6: at most one widget instance is live in any reachable state, and
every (re)initialization destroys the existing instance (exactly one when
one exists) before constructing the new one. -/
theorem at_most_one_widget_instance (env : Env) (events : List Event)
    (s t : CState) (w : Widget) (md : Option DateT)
    (hw : s.datePickerInstance = some w)
    (ht : t.datePickerInstance = none) :
    (live (run env initState events)).length ≤ 1 ∧
    (initializeDatepicker env s md).2 =
      [Effect.destroyWidget w.id, Effect.createWidget s.nextWidgetId] ∧
    (initializeDatepicker env t md).2 = [Effect.createWidget t.nextWidgetId] := by
  refine ⟨?_, ?_, ?_⟩
  · have hinv := run_inv env events initState initState_inv
    rw [hinv.liveEq]
    cases (run env initState events).datePickerInstance <;> simp
  · simp [initializeDatepicker, hw]
  · simp [initializeDatepicker, ht]

theorem at_most_one_widget_instance_witness :
    sampleStateW.datePickerInstance = some sampleWidget ∧
    initState.datePickerInstance = none ∧
    ((live (run sampleEnv initState [])).length ≤ 1 ∧
     (initializeDatepicker sampleEnv sampleStateW none).2 =
       [Effect.destroyWidget sampleWidget.id,
        Effect.createWidget sampleStateW.nextWidgetId] ∧
     (initializeDatepicker sampleEnv initState none).2 =
       [Effect.createWidget initState.nextWidgetId]) :=
  ⟨rfl, rfl,
   at_most_one_widget_instance sampleEnv [] sampleStateW initState sampleWidget
     none rfl rfl⟩

/-- C7: `cancel()` writes no field, leaves the component state (date and
toggles included) entirely unchanged, and emits the completion event exactly
once. -/
theorem cancel_writes_nothing_emits_once (s : CState) :
    cancel s = (s, [Effect.emitSavedOrCancelled]) ∧
    setValueCount (cancel s).2 = 0 ∧
    emitCount (cancel s).2 = 1 :=
  ⟨rfl, rfl, rfl⟩

/-- C8: `setToday()` sets the local date field to today's date formatted per
the active timezone and pushes it into the widget in the same call: the only
effect is the immediate widget synchronization, no manual-edit signal enters
the debounced stream, and the debounce delay is untouched. -/
theorem setToday_sets_date_and_syncs_immediately (env : Env) (s : CState)
    (w : Widget) (hw : s.datePickerInstance = some w) :
    (setToday env s).1.date = some (env.formattedISODate env.today) ∧
    (setToday env s).1.datePickerInstance.map Widget.selectedDate =
      some (env.parseDate (env.formattedISODate env.today)) ∧
    (setToday env s).2 =
      [Effect.setDatesOnWidget w.id
        (env.parseDate (env.formattedISODate env.today))] ∧
    (setToday env s).1.debounceDelay = s.debounceDelay ∧
    manualSignalCount (setToday env s).2 = 0 := by
  simp [setToday, enforceManualChangesToDatepicker, setDates, hw,
    manualSignalCount]

theorem setToday_sets_date_and_syncs_immediately_witness :
    sampleStateW.datePickerInstance = some sampleWidget ∧
    ((setToday sampleEnv sampleStateW).1.date =
       some (sampleEnv.formattedISODate sampleEnv.today) ∧
     (setToday sampleEnv sampleStateW).1.datePickerInstance.map
       Widget.selectedDate =
       some (sampleEnv.parseDate (sampleEnv.formattedISODate sampleEnv.today)) ∧
     (setToday sampleEnv sampleStateW).2 =
       [Effect.setDatesOnWidget sampleWidget.id
         (sampleEnv.parseDate (sampleEnv.formattedISODate sampleEnv.today))] ∧
     (setToday sampleEnv sampleStateW).1.debounceDelay =
       sampleStateW.debounceDelay ∧
     manualSignalCount (setToday sampleEnv sampleStateW).2 = 0) :=
  ⟨rfl,
   setToday_sets_date_and_syncs_immediately sampleEnv sampleStateW sampleWidget
     rfl⟩

/-- C9: both mode toggles rebuild the widget with no minimal-date argument,
so the rebuilt widget's per-day callback receives an undefined (none)
minimal-date floor, regardless of any minimal date previously delivered. -/
theorem mode_toggles_drop_minimal_date (env : Env) (s : CState) :
    ((step env Event.changeSchedulingMode s).1.datePickerInstance.map
      dayCallbackMinimalDate) = some none ∧
    ((step env Event.changeNonWorkingDays s).1.datePickerInstance.map
      dayCallbackMinimalDate) = some none := by
  constructor <;>
    simp [step, changeSchedulingMode, changeNonWorkingDays,
      initializeDatepicker, dayCallbackMinimalDate]

/-- C10: the widget's `onChange` callback with an empty selected-dates list
leaves the state unchanged and only requests change detection; with a
non-empty list it sets the local date to the timezone-formatted first
selected date. -/
theorem onChange_empty_frame (env : Env) (s : CState) (d : DateT)
    (ds : List DateT) :
    onChange env s [] = (s, [Effect.detectChanges]) ∧
    (onChange env s (d :: ds)).1.date = some (env.formattedISODate d) := by
  constructor
  · rfl
  · simp only [onChange]
    exact enforce_date env _ _

end SingleDateForm
